import Mathlib

/-!
Shallow embedding of the feed-loading and optimistic-mutation logic of the
social-feed UI: the `PostFeed` component (src/unnamed/part_000) and the
`MainLayout` component (src/src/components/MainLayout.tsx).

Modelling conventions:
- Timestamps are `Int` milliseconds; `demoNow` stands for the fixed instant at
  which the PostFeed module-level demo data was built.
- The backend (supabase) is a record of tables plus explicit failure switches:
  `postsErr` models the initial posts query returning an error object,
  `exn` models the awaited call rejecting (caught by the surrounding
  try/catch), `likesFail`/`commentsFail`/`profileFail` model the tolerated
  per-post sub-fetch failures whose `data` comes back null.
- `hasValidSupabaseConfig()` is the boolean `cfg` parameter.
- JS falsiness of an absent/empty string is modelled by the empty string.
-/

/-- A row of the `likes` (PostFeed) / `post_likes` (MainLayout) table, as
selected by `select('id, user_id')` plus the `post_id` filter column. -/
structure LikeRow where
  id : String
  user_id : String
  post_id : String
deriving DecidableEq

/-- A row of the `comments` / `post_comments` table, as selected by
`select('id, content, created_at, user_id')` plus the `post_id` filter
column. -/
structure CommentRow where
  id : String
  content : String
  created_at : Int
  user_id : String
  post_id : String
deriving DecidableEq

/-- Insertion step of a stable descending insertion sort, modelling the
backend's `order('created_at', { ascending: false })`. -/
def insertDescBy (key : α → Int) (x : α) : List α → List α
  | [] => [x]
  | y :: ys => if key y ≤ key x then x :: y :: ys else y :: insertDescBy key x ys

/-- Sort a list descending by an integer key. -/
def sortDescBy (key : α → Int) : List α → List α
  | [] => []
  | x :: xs => insertDescBy key x (sortDescBy key xs)

/-- Insertion step of a stable ascending insertion sort, modelling
`order('created_at', { ascending: true })`. -/
def insertAscBy (key : α → Int) (x : α) : List α → List α
  | [] => [x]
  | y :: ys => if key x ≤ key y then x :: y :: ys else y :: insertAscBy key x ys

/-- Sort a list ascending by an integer key. -/
def sortAscBy (key : α → Int) : List α → List α
  | [] => []
  | x :: xs => insertAscBy key x (sortAscBy key xs)

/-- A profile record as the PostFeed component sees it: the fields of the
`profiles` table rows it selects (`id, username, full_name, avatar_url`)
together with the extra fields carried by the module-level demo profile
(`email`, timestamps). -/
structure PFProfile where
  id : String
  username : String
  full_name : String
  email : Option String
  avatar_url : Option String
  created_at : Int
  updated_at : Int
deriving DecidableEq

/-- A raw row of the `posts` table as returned by `select('*')`.  A null
`visibility` column is modelled by the empty string (both are JS-falsy in
`post.visibility || section || 'public'`). -/
structure PostRow where
  id : String
  user_id : String
  content : String
  images : Option (List String)
  files : Option (List String)
  visibility : String
  community_id : Option String
  created_at : Int
  updated_at : Int
deriving DecidableEq

/-- A comment after PostFeed's enrichment loop: the fetched comment row spread
together with its (possibly suppressed or absent) author profile. -/
structure PFComment where
  id : String
  content : String
  created_at : Int
  user_id : String
  profiles : Option PFProfile
deriving DecidableEq, Inhabited

/-- The derived `_count` pair.  Counts are `Int` because the demo-mode like
toggle decrements without a floor. -/
structure CountPair where
  likes : Int
  comments : Int
deriving DecidableEq, Inhabited

/-- An Assembled Feed Item as PostFeed builds it (`postsWithProfiles.push`):
the post row spread together with resolved visibility, author profile, like
list, enriched comment list and derived counts. -/
structure PFPost where
  id : String
  user_id : String
  content : String
  images : Option (List String)
  files : Option (List String)
  visibility : String
  community_id : Option String
  created_at : Int
  updated_at : Int
  profiles : Option PFProfile
  likes : List LikeRow
  comments : List PFComment
  _count : CountPair
deriving DecidableEq, Inhabited

/-- The PostFeed component's local state: `useState` posts / loading / error. -/
structure FeedState where
  posts : List PFPost
  loading : Bool
  error : Option String
deriving DecidableEq

/-- Initial PostFeed state: `useState([])`, `useState(true)`, `useState(null)`. -/
def initFeedState : FeedState := ⟨[], true, none⟩

/-- The backend as PostFeed consumes it: the four tables plus failure
switches (see the module docstring). -/
structure PFBackend where
  posts : List PostRow
  profiles : List PFProfile
  likes : List LikeRow
  comments : List CommentRow
  postsErr : Option String
  exn : Option String
  likesFail : List String
  commentsFail : List String
  profileFail : List String
deriving DecidableEq

/-- The fixed instant at which the PostFeed module-level demo data was
evaluated (`Date.now()` at module load). -/
def demoNow : Int := 0

/-- `demoPostsData`: the module-level demo post list used when Supabase is not
configured and the section is public. -/
def demoPostsData : List PFPost :=
  [{ id := "1"
     user_id := "demo-user-123"
     content := "Welcome to our social platform! 🎉 This is a demo post to show how the feed works. Feel free to interact with it!"
     images := some ["https://images.pexels.com/photos/1591056/pexels-photo-1591056.jpeg?auto=compress&cs=tinysrgb&w=800"]
     files := some []
     visibility := "public"
     community_id := none
     created_at := demoNow - 1000 * 60 * 30
     updated_at := demoNow - 1000 * 60 * 30
     profiles := some
       { id := "demo-user-123"
         username := "demouser"
         full_name := "Demo User"
         email := some "demo@example.com"
         avatar_url := none
         created_at := demoNow
         updated_at := demoNow }
     likes := []
     comments := []
     _count := { likes := 5, comments := 2 } }]

/-- `demoAnonymousPostsData`: the module-level demo post list used when
Supabase is not configured and the section is anonymous.  No profile data. -/
def demoAnonymousPostsData : List PFPost :=
  [{ id := "2"
     user_id := "demo-user-456"
     content := "This is an anonymous post. You can share your thoughts freely without revealing your identity. Perfect for sensitive topics or when you want complete privacy."
     images := none
     files := none
     visibility := "anonymous"
     community_id := none
     created_at := demoNow - 1000 * 60 * 45
     updated_at := demoNow - 1000 * 60 * 45
     profiles := none
     likes := []
     comments := []
     _count := { likes := 3, comments := 1 } }]

/-- The filter part of the posts query PostFeed builds by chaining `eq` /
`is` calls on `supabase.from('posts').select('*')`. -/
structure PostsQuery where
  visibilityEq : Option String
  communityIsNull : Bool
  communityEq : Option String
deriving DecidableEq

/-- The partition resolver: PostFeed's section dispatch that chains filters
onto the posts query (`section === 'public' || !section` / `'anonymous'` /
community id). -/
def buildPostsQuery (sec : String) : PostsQuery :=
  if sec == "public" || sec == "" then
    { visibilityEq := some "public", communityIsNull := true, communityEq := none }
  else if sec == "anonymous" then
    { visibilityEq := some "anonymous", communityIsNull := true, communityEq := none }
  else
    { visibilityEq := none, communityIsNull := false, communityEq := some sec }

/-- Whether a posts-table row satisfies a built query's filters. -/
def matchesPostsQuery (q : PostsQuery) (p : PostRow) : Bool :=
  (match q.visibilityEq with
   | some v => p.visibility == v
   | none => true) &&
  (!q.communityIsNull || p.community_id == none) &&
  (match q.communityEq with
   | some c => p.community_id == some c
   | none => true)

/-- Run a posts query against the backend's posts table: filter, then
`order('created_at', { ascending: false })`. -/
def runPostsQuery (q : PostsQuery) (rows : List PostRow) : List PostRow :=
  sortDescBy (fun p => p.created_at) (rows.filter (matchesPostsQuery q))

/-- The per-post profile lookup
(`from('profiles').select(...).eq('id', user_id).single()`); a failing or
empty lookup yields null data, which the loop tolerates. -/
def pfFetchProfile (b : PFBackend) (uid : String) : Option PFProfile :=
  if uid ∈ b.profileFail then none
  else b.profiles.find? (fun pr => pr.id == uid)

/-- The per-post likes fetch (`from('likes').select('id, user_id')
.eq('post_id', id)`); `none` models an error result with null data. -/
def pfFetchLikes (b : PFBackend) (pid : String) : Option (List LikeRow) :=
  if pid ∈ b.likesFail then none
  else some (b.likes.filter (fun l => l.post_id == pid))

/-- The per-post comments fetch, ordered
`order('created_at', { ascending: true })`; `none` models an error result. -/
def pfFetchComments (b : PFBackend) (pid : String) : Option (List CommentRow) :=
  if pid ∈ b.commentsFail then none
  else some (sortAscBy (fun c => c.created_at) (b.comments.filter (fun c => c.post_id == pid)))

/-- Enrich one fetched comment: resolve its author profile unless the section
is anonymous (`if (section !== 'anonymous')`). -/
def pfAssembleComment (b : PFBackend) (sec : String) (c : CommentRow) : PFComment :=
  let commentProfile := if sec ≠ "anonymous" then pfFetchProfile b c.user_id else none
  { id := c.id, content := c.content, created_at := c.created_at
    user_id := c.user_id, profiles := commentProfile }

/-- Assemble one post: the body of PostFeed's `for (const post of simplePosts)`
loop, ending in the `postsWithProfiles.push({...})`. -/
def pfAssemblePost (b : PFBackend) (sec : String) (post : PostRow) : PFPost :=
  let profile := if sec ≠ "anonymous" then pfFetchProfile b post.user_id else none
  let likes := pfFetchLikes b post.id
  let comments := pfFetchComments b post.id
  let commentsWithProfiles := (comments.getD []).map (pfAssembleComment b sec)
  { id := post.id
    user_id := post.user_id
    content := post.content
    images := post.images
    files := post.files
    visibility :=
      if post.visibility ≠ "" then post.visibility
      else if sec ≠ "" then sec else "public"
    community_id := post.community_id
    created_at := post.created_at
    updated_at := post.updated_at
    profiles := profile
    likes := likes.getD []
    comments := commentsWithProfiles
    _count :=
      { likes := ((likes.getD []).length : Int)
        comments := (commentsWithProfiles.length : Int) } }

/-- The whole successful assembly: query result mapped through the enrichment
loop. -/
def pfAssembledFeed (b : PFBackend) (sec : String) : List PFPost :=
  (runPostsQuery (buildPostsQuery sec) b.posts).map (pfAssemblePost b sec)

/-- `PostFeed.loadPosts`.  `cfg` is `hasValidSupabaseConfig()`.  Branches, in
source order: demo data when unconfigured; catch-path when the awaited query
rejects; early return on a returned query error; early return on an empty
result; otherwise the enrichment loop followed by `setPosts`.  Every path
ends with the loading flag false (early `setLoading(false)` or `finally`). -/
def pfLoadPosts (cfg : Bool) (b : PFBackend) (sec : String) (st : FeedState) : FeedState :=
  if !cfg then
    if sec == "public" || sec == "" then
      { posts := demoPostsData, loading := false, error := none }
    else if sec == "anonymous" then
      { posts := demoAnonymousPostsData, loading := false, error := none }
    else
      { posts := [], loading := false, error := none }
  else
    match b.exn with
    | some m =>
        { st with loading := false, error := some ("Failed to load posts: " ++ m) }
    | none =>
      match b.postsErr with
      | some m =>
          { st with loading := false, error := some ("Database error: " ++ m) }
      | none =>
        let simplePosts := runPostsQuery (buildPostsQuery sec) b.posts
        if simplePosts.isEmpty then
          { posts := [], loading := false, error := none }
        else
          { posts := simplePosts.map (pfAssemblePost b sec), loading := false, error := none }

/-- A backend with empty tables and no failures. -/
def emptyPFBackend : PFBackend :=
  { posts := [], profiles := [], likes := [], comments := []
    postsErr := none, exn := none
    likesFail := [], commentsFail := [], profileFail := [] }

/-- The demo-mode branch of `PostFeed.handleLike`: the `setPosts(prevPosts =>
prevPosts.map(...))` updater that adjusts only the matching post's
`_count.likes` by ±1 depending on whether the current user appears in the
post's cached like list. -/
def pfHandleLikeDemo (currentUserId : String) (postId : String)
    (posts : List PFPost) : List PFPost :=
  posts.map fun post =>
    if post.id == postId then
      let isLiked := post.likes.any (fun l => l.user_id == currentUserId)
      let newLikesCount :=
        if isLiked then post._count.likes - 1 else post._count.likes + 1
      { post with _count := { post._count with likes := newLikesCount } }
    else post

/-- `PostFeed.handleLike`.  `freshId` is the row id the backend would assign
to an inserted like; `rejects` models the awaited remote call rejecting, in
which case the catch only logs and nothing changes.  The result pairs the
(possibly mutated) backend with the state after the trailing `loadPosts()`. -/
def pfHandleLike (cfg : Bool) (currentUserId postId freshId : String)
    (rejects : Bool) (sec : String) (b : PFBackend) (st : FeedState) :
    PFBackend × FeedState :=
  if !cfg then
    (b, { st with posts := pfHandleLikeDemo currentUserId postId st.posts })
  else if rejects then
    (b, st)
  else
    let existingLike :=
      (st.posts.find? (fun p => p.id == postId)).bind
        (fun p => p.likes.find? (fun l => l.user_id == currentUserId))
    let b' :=
      match existingLike with
      | some l => { b with likes := b.likes.filter (fun r => !(r.id == l.id)) }
      | none => { b with likes := b.likes ++ [⟨freshId, currentUserId, postId⟩] }
    (b', pfLoadPosts true b' sec st)

/-- `PostFeed.handleComment`.  Demo mode only raises an alert (state and
backend untouched); backend mode inserts the comment row and reloads, and a
rejection is caught and only logged. -/
def pfHandleComment (cfg : Bool) (currentUserId postId content freshId : String)
    (now : Int) (rejects : Bool) (sec : String) (b : PFBackend) (st : FeedState) :
    PFBackend × FeedState :=
  if !cfg then
    (b, st)
  else if rejects then
    (b, st)
  else
    let b' := { b with comments := b.comments ++ [⟨freshId, content, now, currentUserId, postId⟩] }
    (b', pfLoadPosts true b' sec st)

/-- A MainLayout profile record: the full `Profile` shape carried by the demo
posts (`full_name`, `display_name`, `email`, `avatar_url`, `bio`, `website`,
`location`, timestamps). -/
structure MLProfile where
  id : String
  full_name : Option String
  display_name : Option String
  email : String
  avatar_url : Option String
  bio : Option String
  website : Option String
  location : Option String
  created_at : Int
  updated_at : Int
deriving DecidableEq

/-- A comment as embedded by MainLayout's joined select
(`comments:post_comments(..., profiles(...))`). -/
structure MLComment where
  id : String
  content : String
  created_at : Int
  user_id : String
  profiles : Option MLProfile
deriving DecidableEq, Inhabited

/-- A raw row of MainLayout's `posts` table (before the joins). -/
structure MLPostRow where
  id : String
  user_id : String
  content : String
  images : List String
  is_anonymous : Bool
  created_at : Int
  updated_at : Int
deriving DecidableEq

/-- A post as MainLayout holds it in state: the joined row spread together
with the derived `_count` pair. -/
structure MLPost where
  id : String
  user_id : String
  content : String
  images : List String
  is_anonymous : Bool
  created_at : Int
  updated_at : Int
  profiles : Option MLProfile
  likes : List LikeRow
  comments : List MLComment
  _count : CountPair
deriving DecidableEq, Inhabited

/-- MainLayout's local feed state. -/
structure MLFeedState where
  posts : List MLPost
  loading : Bool
  error : Option String
deriving DecidableEq

/-- Initial MainLayout state: `useState([])`, `useState(true)`, `useState(null)`. -/
def initMLFeedState : MLFeedState := ⟨[], true, none⟩

/-- The backend as MainLayout consumes it: base tables the joined select reads
(`posts`, `profiles`, `post_likes`, `post_comments`) plus the failure
switches for the single query. -/
structure MLBackend where
  posts : List MLPostRow
  profiles : List MLProfile
  post_likes : List LikeRow
  post_comments : List CommentRow
  queryErr : Option String
  exn : Option String
deriving DecidableEq

/-- Server-side embed of a comment's author profile
(`profiles(id, display_name, full_name, avatar_url)`). -/
def mlJoinComment (b : MLBackend) (c : CommentRow) : MLComment :=
  { id := c.id, content := c.content, created_at := c.created_at
    user_id := c.user_id
    profiles := b.profiles.find? (fun pr => pr.id == c.user_id) }

/-- Server-side join for one post row: embedded author profile, like rows and
comment rows with their profiles. -/
def mlJoinPost (b : MLBackend) (p : MLPostRow) :
    Option MLProfile × List LikeRow × List MLComment :=
  (b.profiles.find? (fun pr => pr.id == p.user_id),
   b.post_likes.filter (fun l => l.post_id == p.id),
   (b.post_comments.filter (fun c => c.post_id == p.id)).map (mlJoinComment b))

/-- Turn one joined row into the state shape by attaching the derived counts
(`_count: { likes: post.likes?.length || 0, comments: post.comments?.length || 0 }`). -/
def mlAssemblePost (b : MLBackend) (p : MLPostRow) : MLPost :=
  let joined := mlJoinPost b p
  { id := p.id, user_id := p.user_id, content := p.content
    images := p.images, is_anonymous := p.is_anonymous
    created_at := p.created_at, updated_at := p.updated_at
    profiles := joined.1
    likes := joined.2.1
    comments := joined.2.2
    _count := { likes := (joined.2.1.length : Int), comments := (joined.2.2.length : Int) } }

/-- MainLayout's single joined query: filter
`eq('is_anonymous', currentSection === 'anonymous')`, order newest first,
join, and attach counts. -/
def mlAssembledFeed (b : MLBackend) (sec : String) : List MLPost :=
  (sortDescBy (fun p => p.created_at)
      (b.posts.filter (fun p => p.is_anonymous == (sec == "anonymous")))).map
    (mlAssemblePost b)

/-- MainLayout's inline demo posts, built inside `loadPosts` from the current
profile, the current time and the current section. -/
def mlDemoPosts (profile : MLProfile) (now : Int) (sec : String) : List MLPost :=
  [{ id := "1"
     user_id := profile.id
     content := "Welcome to TepiTingkap! This is a demo post to show how the platform works. You can share your thoughts, images, and connect with others in the community."
     images := ["https://images.pexels.com/photos/1591056/pexels-photo-1591056.jpeg?auto=compress&cs=tinysrgb&w=800"]
     is_anonymous := sec == "anonymous"
     created_at := now - 1000 * 60 * 30
     updated_at := now - 1000 * 60 * 30
     profiles := some profile
     likes := []
     comments := []
     _count := { likes := 5, comments := 2 } },
   { id := "2"
     user_id := "demo-user-2"
     content := "Beautiful sunset today! 🌅 Sometimes we need to pause and appreciate the simple moments in life."
     images := ["https://images.pexels.com/photos/1181677/pexels-photo-1181677.jpeg?auto=compress&cs=tinysrgb&w=800"]
     is_anonymous := sec == "anonymous"
     created_at := now - 1000 * 60 * 60 * 2
     updated_at := now - 1000 * 60 * 60 * 2
     profiles := some
       { id := "demo-user-2"
         full_name := if sec == "anonymous" then none else some "Nature Lover"
         display_name := if sec == "anonymous" then none else some "naturelover"
         email := "nature@example.com"
         avatar_url := none, bio := none, website := none, location := none
         created_at := now, updated_at := now }
     likes := []
     comments := []
     _count := { likes := 12, comments := 4 } },
   { id := "3"
     user_id := "demo-user-3"
     content :=
       if sec == "anonymous" then
         "Sharing this anonymously - sometimes it's easier to express thoughts without revealing identity. What do you think about anonymous social sharing?"
       else
         "Just finished reading an amazing book! 📚 \"The Power of Now\" really changed my perspective on mindfulness and living in the present moment."
     images :=
       if sec == "anonymous" then []
       else ["https://images.pexels.com/photos/1261728/pexels-photo-1261728.jpeg?auto=compress&cs=tinysrgb&w=800"]
     is_anonymous := sec == "anonymous"
     created_at := now - 1000 * 60 * 60 * 4
     updated_at := now - 1000 * 60 * 60 * 4
     profiles := some
       { id := "demo-user-3"
         full_name := if sec == "anonymous" then none else some "Book Reader"
         display_name := if sec == "anonymous" then none else some "booklover"
         email := "books@example.com"
         avatar_url := none, bio := none, website := none, location := none
         created_at := now, updated_at := now }
     likes := []
     comments := []
     _count := { likes := 8, comments := 6 } }]

/-- `MainLayout.loadPosts`.  Demo branch when unconfigured; catch-path on a
rejection; error branch (no early return, posts untouched) on a returned
query error; otherwise `setPosts` of the joined result with counts.  The
`finally` clears the loading flag on every path. -/
def mlLoadPosts (cfg : Bool) (profile : MLProfile) (now : Int) (b : MLBackend)
    (sec : String) (st : MLFeedState) : MLFeedState :=
  if !cfg then
    { posts := mlDemoPosts profile now sec, loading := false, error := none }
  else
    match b.exn with
    | some m =>
        { st with loading := false, error := some ("Failed to load posts: " ++ m) }
    | none =>
      match b.queryErr with
      | some m =>
          { st with loading := false, error := some ("Failed to load posts: " ++ m) }
      | none =>
          { posts := mlAssembledFeed b sec, loading := false, error := none }

/-- The demo-mode branch of `MainLayout.handleLike`: identical updater to the
PostFeed one, over MainLayout's post shape. -/
def mlHandleLikeDemo (profileId : String) (postId : String)
    (posts : List MLPost) : List MLPost :=
  posts.map fun post =>
    if post.id == postId then
      let isLiked := post.likes.any (fun l => l.user_id == profileId)
      let newLikesCount :=
        if isLiked then post._count.likes - 1 else post._count.likes + 1
      { post with _count := { post._count with likes := newLikesCount } }
    else post

/-- `MainLayout.handleLike`: same structure as `pfHandleLike`, over the
`post_likes` table. -/
def mlHandleLike (cfg : Bool) (profile : MLProfile) (now : Int)
    (postId freshId : String) (rejects : Bool) (sec : String)
    (b : MLBackend) (st : MLFeedState) : MLBackend × MLFeedState :=
  if !cfg then
    (b, { st with posts := mlHandleLikeDemo profile.id postId st.posts })
  else if rejects then
    (b, st)
  else
    let existingLike :=
      (st.posts.find? (fun p => p.id == postId)).bind
        (fun p => p.likes.find? (fun l => l.user_id == profile.id))
    let b' :=
      match existingLike with
      | some l => { b with post_likes := b.post_likes.filter (fun r => !(r.id == l.id)) }
      | none => { b with post_likes := b.post_likes ++ [⟨freshId, profile.id, postId⟩] }
    (b', mlLoadPosts true profile now b' sec st)

/-- `MainLayout.handleComment`: alert only in demo mode; insert into
`post_comments` and reload in backend mode; a rejection is caught and only
logged. -/
def mlHandleComment (cfg : Bool) (profile : MLProfile) (now : Int)
    (postId content freshId : String) (rejects : Bool) (sec : String)
    (b : MLBackend) (st : MLFeedState) : MLBackend × MLFeedState :=
  if !cfg then
    (b, st)
  else if rejects then
    (b, st)
  else
    let b' := { b with post_comments := b.post_comments ++ [⟨freshId, content, now, profile.id, postId⟩] }
    (b', mlLoadPosts true profile now b' sec st)

/-- On the successful backend path (no rejection, no query error) the PostFeed
loader stores exactly the assembled feed. -/
theorem pfLoadPosts_ok_posts (b : PFBackend) (sec : String) (st : FeedState)
    (hx : b.exn = none) (hq : b.postsErr = none) :
    (pfLoadPosts true b sec st).posts = pfAssembledFeed b sec := by
  unfold pfLoadPosts
  rw [hx, hq]
  simp only [Bool.not_true, Bool.false_eq_true, if_false]
  split
  · next h =>
    rw [List.isEmpty_iff] at h
    simp [pfAssembledFeed, h]
  · rfl

/-- On the successful backend path the MainLayout loader stores exactly the
joined feed with counts. -/
theorem mlLoadPosts_ok_posts (profile : MLProfile) (now : Int) (b : MLBackend)
    (sec : String) (st : MLFeedState)
    (hx : b.exn = none) (hq : b.queryErr = none) :
    (mlLoadPosts true profile now b sec st).posts = mlAssembledFeed b sec := by
  unfold mlLoadPosts
  rw [hx, hq]
  rfl

/-- C10: every completed invocation of either feed-load routine — demo mode,
rejected query, returned query error, zero matching posts, or successful
assembly — leaves the loading flag false. -/
theorem c10_loading_always_false (cfg : Bool) (b : PFBackend) (mb : MLBackend)
    (profile : MLProfile) (now : Int) (sec : String) (st : FeedState)
    (mst : MLFeedState) :
    (pfLoadPosts cfg b sec st).loading = false ∧
    (mlLoadPosts cfg profile now mb sec mst).loading = false := by
  constructor
  · unfold pfLoadPosts
    split
    · split
      · rfl
      · split <;> rfl
    · cases b.exn
      · cases b.postsErr
        · dsimp only
          split <;> rfl
        · rfl
      · rfl
  · unfold mlLoadPosts
    split
    · rfl
    · cases mb.exn
      · cases mb.queryErr <;> rfl
      · rfl

/-- C8: with an unchanged backend and the same partition, running either feed
loader twice in succession yields the same posts sequence (same identities,
order, and counts) as running it once. -/
theorem c8_feed_load_idempotent (cfg : Bool) (b : PFBackend) (mb : MLBackend)
    (profile : MLProfile) (now : Int) (sec : String) (st : FeedState)
    (mst : MLFeedState) :
    (pfLoadPosts cfg b sec (pfLoadPosts cfg b sec st)).posts
      = (pfLoadPosts cfg b sec st).posts ∧
    (mlLoadPosts cfg profile now mb sec (mlLoadPosts cfg profile now mb sec mst)).posts
      = (mlLoadPosts cfg profile now mb sec mst).posts := by
  constructor
  · unfold pfLoadPosts
    split
    · split
      · rfl
      · split <;> rfl
    · cases b.exn
      · cases b.postsErr
        · dsimp only
        · rfl
      · rfl
  · unfold mlLoadPosts
    split
    · rfl
    · cases mb.exn
      · cases mb.queryErr <;> rfl
      · rfl

/-- C7: a rejected remote mutation (like insert/delete or comment insert) in
backend mode is swallowed inside the handler: the handler returns normally,
the backend is untouched, and the component state — posts, loading flag and
error flag alike — is exactly what it was, so the user sees nothing. -/
theorem c7_mutation_failure_silent (uid pid f content : String) (now : Int)
    (sec : String) (profile : MLProfile) (b : PFBackend) (st : FeedState)
    (mb : MLBackend) (mst : MLFeedState) (tnow : Int) :
    pfHandleLike true uid pid f true sec b st = (b, st) ∧
    pfHandleComment true uid pid content f tnow true sec b st = (b, st) ∧
    mlHandleLike true profile now pid f true sec mb mst = (mb, mst) ∧
    mlHandleComment true profile now pid content f true sec mb mst = (mb, mst) :=
  ⟨rfl, rfl, rfl, rfl⟩

/-- C3: the partition resolver maps `public` (and the falsy empty value,
identically to `public` and never as an error) to the predicate
"visibility = public and no community association", `anonymous` to
"visibility = anonymous and no community association", and any other
non-empty section string to "community association equals that string". -/
theorem c3_partition_resolver (p : PostRow) (sec : String)
    (h1 : sec ≠ "public") (h2 : sec ≠ "anonymous") (h3 : sec ≠ "") :
    matchesPostsQuery (buildPostsQuery "public") p
      = (p.visibility == "public" && p.community_id == none) ∧
    matchesPostsQuery (buildPostsQuery "anonymous") p
      = (p.visibility == "anonymous" && p.community_id == none) ∧
    buildPostsQuery "" = buildPostsQuery "public" ∧
    matchesPostsQuery (buildPostsQuery sec) p = (p.community_id == some sec) := by
  refine ⟨?_, ?_, rfl, ?_⟩
  · simp [buildPostsQuery, matchesPostsQuery]
  · simp [buildPostsQuery, matchesPostsQuery]
  · have e : buildPostsQuery sec
        = { visibilityEq := none, communityIsNull := false, communityEq := some sec } := by
      unfold buildPostsQuery
      rw [if_neg, if_neg]
      · simp [beq_iff_eq, h2]
      · simp [beq_iff_eq, h1, h3]
    rw [e]
    simp [matchesPostsQuery]

/-- Witness for C3 at a concrete row and the concrete community section
`c1`. -/
theorem c3_partition_resolver_witness :
    matchesPostsQuery (buildPostsQuery "c1")
        { id := "p1", user_id := "u1", content := "hi", images := none
          files := none, visibility := "public", community_id := some "c1"
          created_at := 0, updated_at := 0 }
      = true := by
  have h := c3_partition_resolver
    { id := "p1", user_id := "u1", content := "hi", images := none
      files := none, visibility := "public", community_id := some "c1"
      created_at := 0, updated_at := 0 }
    "c1" (by decide) (by decide) (by decide)
  rw [h.2.2.2]
  decide

/-- C4: when the initial post-list query returns an error or rejects, both
loaders halt without partial assembly: the loading flag ends false, the error
flag holds a non-empty message, and the (initially empty) posts list stays
empty. -/
theorem c4_fetch_failure_halts (b : PFBackend) (mb : MLBackend)
    (profile : MLProfile) (now : Int) (sec : String) (st : FeedState)
    (mst : MLFeedState) (m : String)
    (hst : st.posts = []) (hmst : mst.posts = []) :
    (b.exn = some m →
      (pfLoadPosts true b sec st).loading = false ∧
      (pfLoadPosts true b sec st).error = some ("Failed to load posts: " ++ m) ∧
      ("Failed to load posts: " ++ m) ≠ "" ∧
      (pfLoadPosts true b sec st).posts = []) ∧
    (b.exn = none → b.postsErr = some m →
      (pfLoadPosts true b sec st).loading = false ∧
      (pfLoadPosts true b sec st).error = some ("Database error: " ++ m) ∧
      ("Database error: " ++ m) ≠ "" ∧
      (pfLoadPosts true b sec st).posts = []) ∧
    (mb.exn = some m →
      (mlLoadPosts true profile now mb sec mst).loading = false ∧
      (mlLoadPosts true profile now mb sec mst).error
        = some ("Failed to load posts: " ++ m) ∧
      ("Failed to load posts: " ++ m) ≠ "" ∧
      (mlLoadPosts true profile now mb sec mst).posts = []) ∧
    (mb.exn = none → mb.queryErr = some m →
      (mlLoadPosts true profile now mb sec mst).loading = false ∧
      (mlLoadPosts true profile now mb sec mst).error
        = some ("Failed to load posts: " ++ m) ∧
      ("Failed to load posts: " ++ m) ≠ "" ∧
      (mlLoadPosts true profile now mb sec mst).posts = []) := by
  have hne1 : ("Failed to load posts: " ++ m) ≠ "" := by
    intro h
    have := congrArg String.length h
    simp [String.length_append] at this
    exact absurd this.1 (by decide)
  have hne2 : ("Database error: " ++ m) ≠ "" := by
    intro h
    have := congrArg String.length h
    simp [String.length_append] at this
    exact absurd this.1 (by decide)
  refine ⟨?_, ?_, ?_, ?_⟩
  · intro hx
    unfold pfLoadPosts
    rw [hx]
    exact ⟨rfl, rfl, hne1, hst⟩
  · intro hx hq
    unfold pfLoadPosts
    rw [hx, hq]
    exact ⟨rfl, rfl, hne2, hst⟩
  · intro hx
    unfold mlLoadPosts
    rw [hx]
    exact ⟨rfl, rfl, hne1, hmst⟩
  · intro hx hq
    unfold mlLoadPosts
    rw [hx, hq]
    exact ⟨rfl, rfl, hne1, hmst⟩

/-- A PostFeed backend whose initial posts query returns an error object. -/
def pfErrBackend : PFBackend := { emptyPFBackend with postsErr := some "boom" }

/-- A MainLayout profile used by concrete witnesses. -/
def witnessProfile : MLProfile :=
  { id := "w1", full_name := some "Witness", display_name := some "wit"
    email := "w@example.com", avatar_url := none, bio := none, website := none
    location := none, created_at := 0, updated_at := 0 }

/-- A MainLayout backend whose query rejects. -/
def mlExnBackend : MLBackend :=
  { posts := [], profiles := [], post_likes := [], post_comments := []
    queryErr := none, exn := some "netdown" }

/-- Witness for C4: the concrete error-returning PostFeed backend and the
concrete rejecting MainLayout backend, both from the initial states. -/
theorem c4_fetch_failure_halts_witness :
    (pfLoadPosts true pfErrBackend "public" initFeedState).loading = false ∧
    (pfLoadPosts true pfErrBackend "public" initFeedState).error
      = some ("Database error: " ++ "boom") ∧
    (mlLoadPosts true witnessProfile 0 mlExnBackend "public" initMLFeedState).error
      = some ("Failed to load posts: " ++ "netdown") := by
  have h := c4_fetch_failure_halts pfErrBackend mlExnBackend witnessProfile 0
    "public" initFeedState initMLFeedState "boom" rfl rfl
  have h2 := c4_fetch_failure_halts pfErrBackend mlExnBackend witnessProfile 0
    "public" initFeedState initMLFeedState "netdown" rfl rfl
  have ha := h.2.1 rfl rfl
  have hb := h2.2.2.1 rfl
  exact ⟨ha.1, ha.2.1, hb.2.1⟩

/-- A MainLayout backend holding one anonymous post whose author has a profile
record: used to show MainLayout does not suppress author profiles on the
anonymous partition. -/
def c1MlBackend : MLBackend :=
  { posts := [{ id := "p1", user_id := "u1", content := "secret thought"
                images := [], is_anonymous := true, created_at := 0, updated_at := 0 }]
    profiles := [{ id := "u1", full_name := some "Ann Author"
                   display_name := some "ann", email := "ann@example.com"
                   avatar_url := none, bio := none, website := none
                   location := none, created_at := 0, updated_at := 0 }]
    post_likes := [], post_comments := [], queryErr := none, exn := none }

/-- Counterexample to C1: claim C1 asserts that on the `anonymous` partition
every item's author profile is unset in BOTH feed-loading components, but
`MainLayout.loadPosts` joins `profiles(...)` unconditionally, so an anonymous
feed load there returns the author's resolved profile whenever the backend
has one. -/
theorem c1_counterexample :
    ¬ (∀ p ∈ (mlLoadPosts true witnessProfile 0 c1MlBackend "anonymous"
          initMLFeedState).posts, p.profiles = none) := by decide

/-- C1 amended: the suppression invariant holds in the `PostFeed` component
(the only loader that checks the anonymous section before resolving
profiles): on every anonymous-partition load — demo mode, or backend mode
when the posts query neither rejects nor errors — every item's author
profile and every attached comment's author profile is unset, regardless of
backend content.  `MainLayout` does not suppress profiles. -/
theorem c1_amended (cfg : Bool) (b : PFBackend) (st : FeedState)
    (hx : b.exn = none) (hq : b.postsErr = none) :
    ∀ p ∈ (pfLoadPosts cfg b "anonymous" st).posts,
      p.profiles = none ∧ ∀ c ∈ p.comments, c.profiles = none := by
  cases cfg with
  | false =>
    intro p hp
    have he : (pfLoadPosts false b "anonymous" st).posts = demoAnonymousPostsData := rfl
    rw [he] at hp
    rw [List.mem_singleton.mp hp]
    exact ⟨rfl, by intro c hc; cases hc⟩
  | true =>
    rw [pfLoadPosts_ok_posts b "anonymous" st hx hq]
    intro p hp
    obtain ⟨row, _, rfl⟩ := List.mem_map.mp hp
    constructor
    · simp [pfAssemblePost]
    · intro c hc
      have hc' : c ∈ ((pfFetchComments b row.id).getD []).map
          (pfAssembleComment b "anonymous") := hc
      obtain ⟨cr, _, rfl⟩ := List.mem_map.mp hc'
      simp [pfAssembleComment]

/-- A PostFeed backend holding one anonymous post with a comment, and profile
records for both authors. -/
def c1PfBackend : PFBackend :=
  { posts := [{ id := "p1", user_id := "u1", content := "hush", images := none
                files := none, visibility := "anonymous", community_id := none
                created_at := 0, updated_at := 0 }]
    profiles := [{ id := "u1", username := "ann", full_name := "Ann"
                   email := none, avatar_url := none, created_at := 0, updated_at := 0 },
                 { id := "u2", username := "bob", full_name := "Bob"
                   email := none, avatar_url := none, created_at := 0, updated_at := 0 }]
    likes := []
    comments := [{ id := "c1", content := "me too", created_at := 0
                   user_id := "u2", post_id := "p1" }]
    postsErr := none, exn := none
    likesFail := [], commentsFail := [], profileFail := [] }

/-- Witness for C1 amended: a concrete anonymous backend load where both the
post's and its first comment's profile come out unset even though matching
profile rows exist. -/
theorem c1_amended_witness :
    (pfLoadPosts true c1PfBackend "anonymous" initFeedState).posts.headI.profiles
      = none ∧
    (pfLoadPosts true c1PfBackend "anonymous"
        initFeedState).posts.headI.comments.headI.profiles = none := by
  have h := c1_amended true c1PfBackend initFeedState rfl rfl
  have h2 := h _ (show (pfLoadPosts true c1PfBackend "anonymous"
      initFeedState).posts.headI ∈ (pfLoadPosts true c1PfBackend "anonymous"
      initFeedState).posts by decide)
  exact ⟨h2.1, h2.2 _ (by decide)⟩

/-- Counterexample to C2: claim C2 extends the `_count = length` invariant to
the fixed demo sample posts, but the demo post carries `_count.likes = 5` and
`_count.comments = 2` over empty like and comment lists. -/
theorem c2_counterexample :
    ¬ (∀ p ∈ (pfLoadPosts false emptyPFBackend "public" initFeedState).posts,
         p._count.likes = (p.likes.length : Int) ∧
         p._count.comments = (p.comments.length : Int)) := by decide

/-- C2 amended: after any backend-mode feed load whose query neither rejects
nor errors, every post in the resulting state has `_count.likes` equal to the
length of its resolved like list and `_count.comments` equal to the length of
its resolved comment list, in both loaders.  The fixed demo sample posts do
not satisfy this: their counts are fixed illustrative numbers over empty
lists. -/
theorem c2_amended (b : PFBackend) (mb : MLBackend) (profile : MLProfile)
    (now : Int) (sec : String) (st : FeedState) (mst : MLFeedState)
    (hx : b.exn = none) (hq : b.postsErr = none)
    (hmx : mb.exn = none) (hmq : mb.queryErr = none) :
    (∀ p ∈ (pfLoadPosts true b sec st).posts,
       p._count.likes = (p.likes.length : Int) ∧
       p._count.comments = (p.comments.length : Int)) ∧
    (∀ p ∈ (mlLoadPosts true profile now mb sec mst).posts,
       p._count.likes = (p.likes.length : Int) ∧
       p._count.comments = (p.comments.length : Int)) := by
  constructor
  · rw [pfLoadPosts_ok_posts b sec st hx hq]
    intro p hp
    obtain ⟨row, _, rfl⟩ := List.mem_map.mp hp
    exact ⟨rfl, rfl⟩
  · rw [mlLoadPosts_ok_posts profile now mb sec mst hmx hmq]
    intro p hp
    obtain ⟨row, _, rfl⟩ := List.mem_map.mp hp
    exact ⟨rfl, rfl⟩

/-- A PostFeed backend with one public post, one like and one comment. -/
def c2PfBackend : PFBackend :=
  { posts := [{ id := "p1", user_id := "u1", content := "hello", images := none
                files := none, visibility := "public", community_id := none
                created_at := 0, updated_at := 0 }]
    profiles := []
    likes := [{ id := "l1", user_id := "u2", post_id := "p1" }]
    comments := [{ id := "c1", content := "hey", created_at := 0
                   user_id := "u2", post_id := "p1" }]
    postsErr := none, exn := none
    likesFail := [], commentsFail := [], profileFail := [] }

/-- A MainLayout backend with one post, one like and one comment. -/
def c2MlBackend : MLBackend :=
  { posts := [{ id := "p1", user_id := "u1", content := "hello", images := []
                is_anonymous := false, created_at := 0, updated_at := 0 }]
    profiles := []
    post_likes := [{ id := "l1", user_id := "u2", post_id := "p1" }]
    post_comments := [{ id := "c1", content := "hey", created_at := 0
                        user_id := "u2", post_id := "p1" }]
    queryErr := none, exn := none }

/-- Witness for C2 amended at concrete one-like, one-comment backends. -/
theorem c2_amended_witness :
    (pfLoadPosts true c2PfBackend "public" initFeedState).posts.headI._count.likes
      = ((pfLoadPosts true c2PfBackend "public"
            initFeedState).posts.headI.likes.length : Int) ∧
    (mlLoadPosts true witnessProfile 0 c2MlBackend "public"
        initMLFeedState).posts.headI._count.comments
      = ((mlLoadPosts true witnessProfile 0 c2MlBackend "public"
            initMLFeedState).posts.headI.comments.length : Int) := by
  have h := c2_amended c2PfBackend c2MlBackend witnessProfile 0 "public"
    initFeedState initMLFeedState rfl rfl rfl rfl
  exact ⟨(h.1 _ (by decide)).1, (h.2 _ (by decide)).2⟩

/-- Counterexample to C6: claim C6 asserts that with no backend configured
every feed read returns a non-empty fixed sample set for every partition
value, but for a community partition the demo branch stores the empty
list. -/
theorem c6_counterexample :
    (pfLoadPosts false emptyPFBackend "community-1" initFeedState).posts = [] := by
  decide

/-- C6 amended: with no backend configured, the `public` (or empty) partition
returns exactly the fixed demo sample set — one post, with
`_count.likes = 5` and `_count.comments = 2` — and the `anonymous` partition
returns the fixed anonymous sample set; but any other (community) partition
returns the empty list, not a sample set. -/
theorem c6_amended (b : PFBackend) (st : FeedState) (sec : String)
    (h1 : sec ≠ "public") (h2 : sec ≠ "anonymous") (h3 : sec ≠ "") :
    (pfLoadPosts false b "public" st).posts = demoPostsData ∧
    (pfLoadPosts false b "" st).posts = demoPostsData ∧
    (pfLoadPosts false b "anonymous" st).posts = demoAnonymousPostsData ∧
    demoPostsData.length = 1 ∧ demoAnonymousPostsData.length = 1 ∧
    (demoPostsData.map fun p => p._count.likes) = [5] ∧
    (demoPostsData.map fun p => p._count.comments) = [2] ∧
    (pfLoadPosts false b sec st).posts = [] := by
  have hA : (sec == "public" || sec == "") = false := by
    simp [beq_iff_eq, h1, h3]
  have hB : (sec == "anonymous") = false := by
    simp [beq_iff_eq, h2]
  refine ⟨rfl, rfl, rfl, rfl, rfl, rfl, rfl, ?_⟩
  simp [pfLoadPosts, hA, hB]

/-- Witness for C6 amended at the concrete community partition `campus`. -/
theorem c6_amended_witness :
    (pfLoadPosts false emptyPFBackend "public" initFeedState).posts = demoPostsData ∧
    (pfLoadPosts false emptyPFBackend "campus" initFeedState).posts = [] := by
  have h := c6_amended emptyPFBackend initFeedState "campus"
    (by decide) (by decide) (by decide)
  exact ⟨h.1, h.2.2.2.2.2.2.2⟩

/-- Positional description of one step of the demo like updater map for
PostFeed posts. -/
theorem pfHandleLikeDemo_get (uid pid : String) (posts : List PFPost) (i : Nat)
    (hi : i < posts.length) (hj : i < (pfHandleLikeDemo uid pid posts).length) :
    (pfHandleLikeDemo uid pid posts).get ⟨i, hj⟩
      = (if (posts.get ⟨i, hi⟩).id == pid then
          { posts.get ⟨i, hi⟩ with
            _count := { (posts.get ⟨i, hi⟩)._count with
              likes :=
                if (posts.get ⟨i, hi⟩).likes.any (fun l => l.user_id == uid) then
                  (posts.get ⟨i, hi⟩)._count.likes - 1
                else (posts.get ⟨i, hi⟩)._count.likes + 1 } }
         else posts.get ⟨i, hi⟩) := by
  simp only [pfHandleLikeDemo, List.get_eq_getElem, List.getElem_map]

/-- Positional description of one step of the demo like updater map for
MainLayout posts. -/
theorem mlHandleLikeDemo_get (uid pid : String) (posts : List MLPost) (i : Nat)
    (hi : i < posts.length) (hj : i < (mlHandleLikeDemo uid pid posts).length) :
    (mlHandleLikeDemo uid pid posts).get ⟨i, hj⟩
      = (if (posts.get ⟨i, hi⟩).id == pid then
          { posts.get ⟨i, hi⟩ with
            _count := { (posts.get ⟨i, hi⟩)._count with
              likes :=
                if (posts.get ⟨i, hi⟩).likes.any (fun l => l.user_id == uid) then
                  (posts.get ⟨i, hi⟩)._count.likes - 1
                else (posts.get ⟨i, hi⟩)._count.likes + 1 } }
         else posts.get ⟨i, hi⟩) := by
  simp only [mlHandleLikeDemo, List.get_eq_getElem, List.getElem_map]

/-- C9: in demo mode the like toggle makes no backend call and leaves loading
and error untouched; position by position, a post whose id does not match is
returned unchanged, and the matching post changes only `_count.likes`, by -1
when the acting user appears in its cached like list and +1 otherwise, in
both components. -/
theorem c9_demo_like_frame (uid pid f : String) (rej : Bool) (sec : String)
    (profile : MLProfile) (now : Int) (b : PFBackend) (st : FeedState)
    (mb : MLBackend) (mst : MLFeedState) :
    (pfHandleLike false uid pid f rej sec b st).1 = b ∧
    (pfHandleLike false uid pid f rej sec b st).2.loading = st.loading ∧
    (pfHandleLike false uid pid f rej sec b st).2.error = st.error ∧
    (pfHandleLike false uid pid f rej sec b st).2.posts
      = pfHandleLikeDemo uid pid st.posts ∧
    (pfHandleLikeDemo uid pid st.posts).length = st.posts.length ∧
    (∀ i (hi : i < st.posts.length)
        (hj : i < (pfHandleLikeDemo uid pid st.posts).length),
      ((st.posts.get ⟨i, hi⟩).id ≠ pid →
        (pfHandleLikeDemo uid pid st.posts).get ⟨i, hj⟩ = st.posts.get ⟨i, hi⟩) ∧
      ((st.posts.get ⟨i, hi⟩).id = pid →
        (pfHandleLikeDemo uid pid st.posts).get ⟨i, hj⟩
          = { st.posts.get ⟨i, hi⟩ with
              _count := { (st.posts.get ⟨i, hi⟩)._count with
                likes :=
                  if (st.posts.get ⟨i, hi⟩).likes.any (fun l => l.user_id == uid)
                  then (st.posts.get ⟨i, hi⟩)._count.likes - 1
                  else (st.posts.get ⟨i, hi⟩)._count.likes + 1 } })) ∧
    (mlHandleLike false profile now pid f rej sec mb mst).1 = mb ∧
    (mlHandleLike false profile now pid f rej sec mb mst).2.loading = mst.loading ∧
    (mlHandleLike false profile now pid f rej sec mb mst).2.error = mst.error ∧
    (mlHandleLike false profile now pid f rej sec mb mst).2.posts
      = mlHandleLikeDemo profile.id pid mst.posts ∧
    (mlHandleLikeDemo profile.id pid mst.posts).length = mst.posts.length ∧
    (∀ i (hi : i < mst.posts.length)
        (hj : i < (mlHandleLikeDemo profile.id pid mst.posts).length),
      ((mst.posts.get ⟨i, hi⟩).id ≠ pid →
        (mlHandleLikeDemo profile.id pid mst.posts).get ⟨i, hj⟩
          = mst.posts.get ⟨i, hi⟩) ∧
      ((mst.posts.get ⟨i, hi⟩).id = pid →
        (mlHandleLikeDemo profile.id pid mst.posts).get ⟨i, hj⟩
          = { mst.posts.get ⟨i, hi⟩ with
              _count := { (mst.posts.get ⟨i, hi⟩)._count with
                likes :=
                  if (mst.posts.get ⟨i, hi⟩).likes.any
                      (fun l => l.user_id == profile.id)
                  then (mst.posts.get ⟨i, hi⟩)._count.likes - 1
                  else (mst.posts.get ⟨i, hi⟩)._count.likes + 1 } })) := by
  refine ⟨rfl, rfl, rfl, rfl, by simp [pfHandleLikeDemo], ?_,
          rfl, rfl, rfl, rfl, by simp [mlHandleLikeDemo], ?_⟩
  · intro i hi hj
    rw [pfHandleLikeDemo_get uid pid st.posts i hi hj]
    constructor
    · intro hne
      simp only [List.get_eq_getElem] at hne
      simp [beq_iff_eq, hne]
    · intro heq
      simp only [List.get_eq_getElem] at heq
      simp [beq_iff_eq, heq]
  · intro i hi hj
    rw [mlHandleLikeDemo_get profile.id pid mst.posts i hi hj]
    constructor
    · intro hne
      simp only [List.get_eq_getElem] at hne
      simp [beq_iff_eq, hne]
    · intro heq
      simp only [List.get_eq_getElem] at heq
      simp [beq_iff_eq, heq]

/-- A one-post feed where user `u9` already likes post `p1`, count 5. -/
def c9Posts : List PFPost :=
  [{ id := "p1", user_id := "u1", content := "hello", images := none
     files := none, visibility := "public", community_id := none
     created_at := 0, updated_at := 0, profiles := none
     likes := [{ id := "l1", user_id := "u9", post_id := "p1" }]
     comments := [], _count := { likes := 5, comments := 2 } }]

/-- The feed state holding `c9Posts`. -/
def c9St : FeedState := ⟨c9Posts, false, none⟩

/-- Witness for C9: on the concrete liked post the demo toggle lowers the
count from 5 to 4. -/
theorem c9_demo_like_frame_witness :
    (pfHandleLikeDemo "u9" "p1" c9Posts).headI._count.likes = 4 := by
  have h := c9_demo_like_frame "u9" "p1" "f" false "public" witnessProfile 0
    emptyPFBackend c9St c2MlBackend initMLFeedState
  have hidx := h.2.2.2.2.2.1 0 (by decide) (by decide)
  have h2 := hidx.2 (by decide)
  have hb : (pfHandleLikeDemo "u9" "p1" c9Posts).headI
      = (pfHandleLikeDemo "u9" "p1" c9Posts).get ⟨0, by decide⟩ := rfl
  rw [hb]
  have h3 : (pfHandleLikeDemo "u9" "p1" c9St.posts).get ⟨0, by decide⟩
      = (pfHandleLikeDemo "u9" "p1" c9Posts).get ⟨0, by decide⟩ := rfl
  rw [← h3, h2]
  decide

/-- Whether the backend like table contains a like by `uid` on `pid`
(set-membership reading of the Like relation). -/
def likesHas (L : List LikeRow) (uid pid : String) : Bool :=
  L.any (fun l => l.user_id == uid && l.post_id == pid)

/-- The like rows of one post, as every likes fetch/join filters them. -/
def likesForPost (L : List LikeRow) (pid : String) : List LikeRow :=
  L.filter (fun l => l.post_id == pid)

/-- One backend-mode like toggle's effect on the like table, assuming the
cached like list the handler consults equals `likesForPost L pid`: delete the
found row by id, or insert a fresh row. -/
def likeStep (L : List LikeRow) (uid pid f : String) : List LikeRow :=
  match (likesForPost L pid).find? (fun l => l.user_id == uid) with
  | some l => L.filter (fun r => !(r.id == l.id))
  | none => L ++ [⟨f, uid, pid⟩]

/-- Membership reading of `likesHas`. -/
theorem likesHas_iff (L : List LikeRow) (uid pid : String) :
    likesHas L uid pid = true ↔ ∃ l ∈ L, l.user_id = uid ∧ l.post_id = pid := by
  simp [likesHas, List.any_eq_true, Bool.and_eq_true, beq_iff_eq]

/-- `find?` skips a prefix on which it finds nothing. -/
theorem find?_append_of_none {α : Type} {p : α → Bool} {l1 : List α}
    (l2 : List α) (h : l1.find? p = none) :
    (l1 ++ l2).find? p = l2.find? p := by
  induction l1 with
  | nil => rfl
  | cons a l ih =>
    by_cases hpa : p a = true
    · rw [List.find?_cons_of_pos l hpa] at h
      cases h
    · rw [List.find?_cons_of_neg l hpa] at h
      rw [List.cons_append, List.find?_cons_of_neg _ hpa]
      exact ih h

/-- Core toggle law: two successive `likeStep`s restore the membership of
`(uid, pid)` in the like table, provided the table holds at most one like
for that pair. -/
theorem likeStep_twice (L : List LikeRow) (uid pid f1 f2 : String)
    (huniq : ∀ l1 ∈ L, ∀ l2 ∈ L, l1.user_id = uid → l1.post_id = pid →
      l2.user_id = uid → l2.post_id = pid → l1 = l2) :
    likesHas (likeStep (likeStep L uid pid f1) uid pid f2) uid pid
      = likesHas L uid pid := by
  cases h1 : (likesForPost L pid).find? (fun l => l.user_id == uid) with
  | some l =>
    have hl_user : l.user_id = uid := by
      have := List.find?_some h1
      simpa [beq_iff_eq] using this
    have hl_memf := List.mem_of_find?_eq_some h1
    have hl_mem : l ∈ L := (List.mem_filter.mp hl_memf).1
    have hl_post : l.post_id = pid := by
      have := (List.mem_filter.mp hl_memf).2
      simpa [beq_iff_eq] using this
    have hHasL : likesHas L uid pid = true :=
      (likesHas_iff L uid pid).mpr ⟨l, hl_mem, hl_user, hl_post⟩
    have step1 : likeStep L uid pid f1 = L.filter (fun r => !(r.id == l.id)) := by
      unfold likeStep
      rw [h1]
    have hHasL1 : ¬ (likesHas (L.filter (fun r => !(r.id == l.id))) uid pid = true) := by
      intro hcon
      obtain ⟨r, hr_mem, hr_user, hr_post⟩ := (likesHas_iff _ uid pid).mp hcon
      have hr' := List.mem_filter.mp hr_mem
      have : r = l := huniq r hr'.1 l hl_mem hr_user hr_post hl_user hl_post
      subst this
      simp at hr'
    have h2 : (likesForPost (L.filter (fun r => !(r.id == l.id))) pid).find?
        (fun x => x.user_id == uid) = none := by
      rw [List.find?_eq_none]
      intro x hx hpx
      apply hHasL1
      have hx' : x ∈ L.filter (fun r => !(r.id == l.id)) ∧ (x.post_id == pid) = true := by
        have := List.mem_filter.mp hx
        exact ⟨this.1, this.2⟩
      refine (likesHas_iff _ uid pid).mpr ⟨x, hx'.1, ?_, ?_⟩
      · simpa [beq_iff_eq] using hpx
      · simpa [beq_iff_eq] using hx'.2
    have step2 : likeStep (L.filter (fun r => !(r.id == l.id))) uid pid f2
        = L.filter (fun r => !(r.id == l.id)) ++ [⟨f2, uid, pid⟩] := by
      unfold likeStep
      rw [h2]
    rw [step1, step2, hHasL]
    refine (likesHas_iff _ uid pid).mpr ⟨⟨f2, uid, pid⟩, ?_, rfl, rfl⟩
    exact List.mem_append_right _ (List.mem_singleton.mpr rfl)
  | none =>
    have hHasL : ¬ (likesHas L uid pid = true) := by
      intro hcon
      obtain ⟨r, hr_mem, hr_user, hr_post⟩ := (likesHas_iff L uid pid).mp hcon
      have hrf : r ∈ likesForPost L pid := by
        simp [likesForPost, List.mem_filter, beq_iff_eq, hr_mem, hr_post]
      have := List.find?_eq_none.mp h1 r hrf
      simp [beq_iff_eq, hr_user] at this
    have step1 : likeStep L uid pid f1 = L ++ [⟨f1, uid, pid⟩] := by
      unfold likeStep
      rw [h1]
    have hfilter : likesForPost (L ++ [(⟨f1, uid, pid⟩ : LikeRow)]) pid
        = likesForPost L pid ++ [⟨f1, uid, pid⟩] := by
      simp [likesForPost, List.filter_append]
    have h2 : (likesForPost (L ++ [(⟨f1, uid, pid⟩ : LikeRow)]) pid).find?
        (fun l => l.user_id == uid) = some ⟨f1, uid, pid⟩ := by
      rw [hfilter, find?_append_of_none _ h1]
      simp [List.find?]
    have step2 : likeStep (L ++ [(⟨f1, uid, pid⟩ : LikeRow)]) uid pid f2
        = (L ++ [(⟨f1, uid, pid⟩ : LikeRow)]).filter (fun r => !(r.id == f1)) := by
      unfold likeStep
      rw [h2]
    rw [step1, step2]
    have hres : ¬ (likesHas ((L ++ [(⟨f1, uid, pid⟩ : LikeRow)]).filter
        (fun r => !(r.id == f1))) uid pid = true) := by
      intro hcon
      obtain ⟨r, hr_mem, hr_user, hr_post⟩ := (likesHas_iff _ uid pid).mp hcon
      have hr' := List.mem_filter.mp hr_mem
      rcases List.mem_append.mp hr'.1 with hrL | hrF
      · exact hHasL ((likesHas_iff L uid pid).mpr ⟨r, hrL, hr_user, hr_post⟩)
      · have : r = (⟨f1, uid, pid⟩ : LikeRow) := List.mem_singleton.mp hrF
        subst this
        have := hr'.2
        simp at this
    cases hA : likesHas ((L ++ [(⟨f1, uid, pid⟩ : LikeRow)]).filter
        (fun r => !(r.id == f1))) uid pid with
    | true => exact absurd hA hres
    | false =>
      cases hB : likesHas L uid pid with
      | true => exact absurd hB hHasL
      | false => rfl

/-- In an assembled PostFeed item whose likes fetch did not fail, the cached
like list is exactly the backend's like rows for that post. -/
theorem pfAssembled_post_likes (b : PFBackend) (sec : String) (p : PFPost)
    (hp : p ∈ pfAssembledFeed b sec) (hfail : ¬ p.id ∈ b.likesFail) :
    p.likes = likesForPost b.likes p.id := by
  obtain ⟨row, _, rfl⟩ := List.mem_map.mp hp
  have hid : (pfAssemblePost b sec row).id = row.id := rfl
  rw [hid] at hfail
  show ((pfFetchLikes b row.id).getD []) = likesForPost b.likes row.id
  rw [pfFetchLikes, if_neg hfail]
  rfl

/-- The `existingLike` lookup of `PostFeed.handleLike`, on a state synced with
the backend, finds exactly what a search of the backend's like rows for the
post finds. -/
theorem pfExistingLike_eq (b : PFBackend) (sec uid pid : String) (st : FeedState)
    (hsync : st.posts = pfAssembledFeed b sec)
    (hfeed : ∃ p ∈ pfAssembledFeed b sec, p.id = pid)
    (hfail : ¬ pid ∈ b.likesFail) :
    ((st.posts.find? (fun p => p.id == pid)).bind
        (fun p => p.likes.find? (fun l => l.user_id == uid)))
      = (likesForPost b.likes pid).find? (fun l => l.user_id == uid) := by
  rw [hsync]
  obtain ⟨p0, hp0, hid0⟩ := hfeed
  cases hfind : (pfAssembledFeed b sec).find? (fun p => p.id == pid) with
  | none =>
    exfalso
    have := List.find?_eq_none.mp hfind p0 hp0
    simp [beq_iff_eq, hid0] at this
  | some q =>
    have hq_id : q.id = pid := by
      have := List.find?_some hfind
      simpa [beq_iff_eq] using this
    have hq_mem := List.mem_of_find?_eq_some hfind
    have hlikes := pfAssembled_post_likes b sec q hq_mem (by rw [hq_id]; exact hfail)
    rw [Option.some_bind, hlikes, hq_id]

/-- On a synced state, one backend-mode PostFeed like toggle is exactly a
`likeStep` on the like table followed by a reload. -/
theorem pfHandleLike_eq_step (b : PFBackend) (sec uid pid f : String)
    (st : FeedState)
    (hsync : st.posts = pfAssembledFeed b sec)
    (hfeed : ∃ p ∈ pfAssembledFeed b sec, p.id = pid)
    (hfail : ¬ pid ∈ b.likesFail) :
    pfHandleLike true uid pid f false sec b st
      = ({ b with likes := likeStep b.likes uid pid f },
         pfLoadPosts true { b with likes := likeStep b.likes uid pid f } sec st) := by
  have h := pfExistingLike_eq b sec uid pid st hsync hfeed hfail
  unfold pfHandleLike
  simp only [Bool.not_true, Bool.false_eq_true, if_false, h]
  cases hc : (likesForPost b.likes pid).find? (fun l => l.user_id == uid) with
  | some l =>
    have hs : likeStep b.likes uid pid f
        = b.likes.filter (fun r => !(r.id == l.id)) := by
      unfold likeStep
      rw [hc]
    simp only [hs]
  | none =>
    have hs : likeStep b.likes uid pid f = b.likes ++ [⟨f, uid, pid⟩] := by
      unfold likeStep
      rw [hc]
    simp only [hs]

/-- The identities of the assembled PostFeed items do not depend on the like
table. -/
theorem pfAssembledFeed_map_id (b : PFBackend) (sec : String) (L : List LikeRow) :
    ((pfAssembledFeed { b with likes := L } sec).map fun p => p.id)
      = (pfAssembledFeed b sec).map fun p => p.id := by
  show ((runPostsQuery (buildPostsQuery sec) b.posts).map
      (pfAssemblePost { b with likes := L } sec)).map (fun p => p.id)
    = ((runPostsQuery (buildPostsQuery sec) b.posts).map
      (pfAssemblePost b sec)).map (fun p => p.id)
  rw [List.map_map, List.map_map]
  rfl

/-- A post id present in the feed stays present after a like-table update. -/
theorem pfFeed_mem_id_update (b : PFBackend) (sec : String) (L : List LikeRow)
    (pid : String) (hfeed : ∃ p ∈ pfAssembledFeed b sec, p.id = pid) :
    ∃ p ∈ pfAssembledFeed { b with likes := L } sec, p.id = pid := by
  obtain ⟨p, hp, hid⟩ := hfeed
  have hmem : pid ∈ (pfAssembledFeed b sec).map fun p => p.id :=
    List.mem_map.mpr ⟨p, hp, hid⟩
  rw [← pfAssembledFeed_map_id b sec L] at hmem
  obtain ⟨q, hq, hqid⟩ := List.mem_map.mp hmem
  exact ⟨q, hq, hqid⟩

/-- In an assembled MainLayout item, the embedded like list is exactly the
backend's like rows for that post (the join never fails per item). -/
theorem mlAssembled_post_likes (b : MLBackend) (sec : String) (p : MLPost)
    (hp : p ∈ mlAssembledFeed b sec) :
    p.likes = likesForPost b.post_likes p.id := by
  obtain ⟨row, _, rfl⟩ := List.mem_map.mp hp
  rfl

/-- The `existingLike` lookup of `MainLayout.handleLike` on a synced state. -/
theorem mlExistingLike_eq (b : MLBackend) (sec uid pid : String) (st : MLFeedState)
    (hsync : st.posts = mlAssembledFeed b sec)
    (hfeed : ∃ p ∈ mlAssembledFeed b sec, p.id = pid) :
    ((st.posts.find? (fun p => p.id == pid)).bind
        (fun p => p.likes.find? (fun l => l.user_id == uid)))
      = (likesForPost b.post_likes pid).find? (fun l => l.user_id == uid) := by
  rw [hsync]
  obtain ⟨p0, hp0, hid0⟩ := hfeed
  cases hfind : (mlAssembledFeed b sec).find? (fun p => p.id == pid) with
  | none =>
    exfalso
    have := List.find?_eq_none.mp hfind p0 hp0
    simp [beq_iff_eq, hid0] at this
  | some q =>
    have hq_id : q.id = pid := by
      have := List.find?_some hfind
      simpa [beq_iff_eq] using this
    have hq_mem := List.mem_of_find?_eq_some hfind
    have hlikes := mlAssembled_post_likes b sec q hq_mem
    rw [Option.some_bind, hlikes, hq_id]

/-- On a synced state, one backend-mode MainLayout like toggle is exactly a
`likeStep` on the `post_likes` table followed by a reload. -/
theorem mlHandleLike_eq_step (b : MLBackend) (profile : MLProfile) (now : Int)
    (sec pid f : String) (st : MLFeedState)
    (hsync : st.posts = mlAssembledFeed b sec)
    (hfeed : ∃ p ∈ mlAssembledFeed b sec, p.id = pid) :
    mlHandleLike true profile now pid f false sec b st
      = ({ b with post_likes := likeStep b.post_likes profile.id pid f },
         mlLoadPosts true profile now
           { b with post_likes := likeStep b.post_likes profile.id pid f } sec st) := by
  have h := mlExistingLike_eq b sec profile.id pid st hsync hfeed
  unfold mlHandleLike
  simp only [Bool.not_true, Bool.false_eq_true, if_false, h]
  cases hc : (likesForPost b.post_likes pid).find? (fun l => l.user_id == profile.id) with
  | some l =>
    have hs : likeStep b.post_likes profile.id pid f
        = b.post_likes.filter (fun r => !(r.id == l.id)) := by
      unfold likeStep
      rw [hc]
    simp only [hs]
  | none =>
    have hs : likeStep b.post_likes profile.id pid f
        = b.post_likes ++ [⟨f, profile.id, pid⟩] := by
      unfold likeStep
      rw [hc]
    simp only [hs]

/-- The identities of the assembled MainLayout items do not depend on the
like table. -/
theorem mlAssembledFeed_map_id (b : MLBackend) (sec : String) (L : List LikeRow) :
    ((mlAssembledFeed { b with post_likes := L } sec).map fun p => p.id)
      = (mlAssembledFeed b sec).map fun p => p.id := by
  show ((sortDescBy (fun p => p.created_at)
      (b.posts.filter (fun p => p.is_anonymous == (sec == "anonymous")))).map
      (mlAssemblePost { b with post_likes := L })).map (fun p => p.id)
    = ((sortDescBy (fun p => p.created_at)
      (b.posts.filter (fun p => p.is_anonymous == (sec == "anonymous")))).map
      (mlAssemblePost b)).map (fun p => p.id)
  rw [List.map_map, List.map_map]
  rfl

/-- A post id present in the MainLayout feed stays present after a like-table
update. -/
theorem mlFeed_mem_id_update (b : MLBackend) (sec : String) (L : List LikeRow)
    (pid : String) (hfeed : ∃ p ∈ mlAssembledFeed b sec, p.id = pid) :
    ∃ p ∈ mlAssembledFeed { b with post_likes := L } sec, p.id = pid := by
  obtain ⟨p, hp, hid⟩ := hfeed
  have hmem : pid ∈ (mlAssembledFeed b sec).map fun p => p.id :=
    List.mem_map.mpr ⟨p, hp, hid⟩
  rw [← mlAssembledFeed_map_id b sec L] at hmem
  obtain ⟨q, hq, hqid⟩ := List.mem_map.mp hmem
  exact ⟨q, hq, hqid⟩

/-- Counterexample to C5: in demo mode two successive like toggles do not
return the post to its original state — the cached like list is never updated,
so the second toggle repeats the first instead of reversing it, and the demo
post's count goes 5 → 6 → 7. -/
theorem c5_counterexample :
    ((pfHandleLike false "u9" "1" "f2" false "public"
        (pfHandleLike false "u9" "1" "f1" false "public" emptyPFBackend
          (pfLoadPosts false emptyPFBackend "public" initFeedState)).1
        (pfHandleLike false "u9" "1" "f1" false "public" emptyPFBackend
          (pfLoadPosts false emptyPFBackend "public" initFeedState)).2).2.posts.map
      (fun p => p._count.likes)) = [7] ∧
    ((pfLoadPosts false emptyPFBackend "public" initFeedState).posts.map
      (fun p => p._count.likes)) = [5] := by decide

/-- C5 amended: in backend-configured mode (state synced with a backend whose
posts query succeeds, the toggled post present in the feed, its likes fetch
not failing, and at most one like per (user, post) pair in the table), two
successive like toggles restore the Like relation's membership for that pair,
in both components.  In demo mode the like toggle never touches the cached
like lists at all (so the ±1 count drift of the counterexample is never
reversed). -/
theorem c5_amended (b : PFBackend) (mb : MLBackend) (profile : MLProfile)
    (now : Int) (sec uid pid f1 f2 : String) (st : FeedState) (mst : MLFeedState)
    (hx : b.exn = none) (hq : b.postsErr = none)
    (hsync : st.posts = pfAssembledFeed b sec)
    (hfeed : ∃ p ∈ pfAssembledFeed b sec, p.id = pid)
    (hfail : ¬ pid ∈ b.likesFail)
    (huniq : ∀ l1 ∈ b.likes, ∀ l2 ∈ b.likes, l1.user_id = uid → l1.post_id = pid →
      l2.user_id = uid → l2.post_id = pid → l1 = l2)
    (hmx : mb.exn = none) (hmq : mb.queryErr = none)
    (hmsync : mst.posts = mlAssembledFeed mb sec)
    (hmfeed : ∃ p ∈ mlAssembledFeed mb sec, p.id = pid)
    (hmuniq : ∀ l1 ∈ mb.post_likes, ∀ l2 ∈ mb.post_likes,
      l1.user_id = profile.id → l1.post_id = pid →
      l2.user_id = profile.id → l2.post_id = pid → l1 = l2) :
    likesHas (pfHandleLike true uid pid f2 false sec
        (pfHandleLike true uid pid f1 false sec b st).1
        (pfHandleLike true uid pid f1 false sec b st).2).1.likes uid pid
      = likesHas b.likes uid pid ∧
    (pfHandleLikeDemo uid pid st.posts).map (fun p => p.likes)
      = st.posts.map (fun p => p.likes) ∧
    likesHas (mlHandleLike true profile now pid f2 false sec
        (mlHandleLike true profile now pid f1 false sec mb mst).1
        (mlHandleLike true profile now pid f1 false sec mb mst).2).1.post_likes
        profile.id pid
      = likesHas mb.post_likes profile.id pid ∧
    (mlHandleLikeDemo profile.id pid mst.posts).map (fun p => p.likes)
      = mst.posts.map (fun p => p.likes) := by
  refine ⟨?_, ?_, ?_, ?_⟩
  · have e1 := pfHandleLike_eq_step b sec uid pid f1 st hsync hfeed hfail
    rw [e1]
    dsimp only
    have hsync1 : (pfLoadPosts true { b with likes := likeStep b.likes uid pid f1 }
          sec st).posts
        = pfAssembledFeed { b with likes := likeStep b.likes uid pid f1 } sec :=
      pfLoadPosts_ok_posts _ sec st hx hq
    have hfeed1 := pfFeed_mem_id_update b sec (likeStep b.likes uid pid f1) pid hfeed
    have e2 := pfHandleLike_eq_step { b with likes := likeStep b.likes uid pid f1 }
      sec uid pid f2
      (pfLoadPosts true { b with likes := likeStep b.likes uid pid f1 } sec st)
      hsync1 hfeed1 hfail
    rw [e2]
    dsimp only
    exact likeStep_twice b.likes uid pid f1 f2 huniq
  · unfold pfHandleLikeDemo
    rw [List.map_map]
    apply List.map_congr_left
    intro a _
    by_cases hc : (a.id == pid) = true
    · simp only [beq_iff_eq] at hc
      simp [hc]
    · simp only [beq_iff_eq] at hc
      simp [hc]
  · have e1 := mlHandleLike_eq_step mb profile now sec pid f1 mst hmsync hmfeed
    rw [e1]
    dsimp only
    have hsync1 : (mlLoadPosts true profile now
          { mb with post_likes := likeStep mb.post_likes profile.id pid f1 }
          sec mst).posts
        = mlAssembledFeed
            { mb with post_likes := likeStep mb.post_likes profile.id pid f1 } sec :=
      mlLoadPosts_ok_posts profile now _ sec mst hmx hmq
    have hfeed1 := mlFeed_mem_id_update mb sec
      (likeStep mb.post_likes profile.id pid f1) pid hmfeed
    have e2 := mlHandleLike_eq_step
      { mb with post_likes := likeStep mb.post_likes profile.id pid f1 }
      profile now sec pid f2
      (mlLoadPosts true profile now
        { mb with post_likes := likeStep mb.post_likes profile.id pid f1 } sec mst)
      hsync1 hfeed1
    rw [e2]
    dsimp only
    exact likeStep_twice mb.post_likes profile.id pid f1 f2 hmuniq
  · unfold mlHandleLikeDemo
    rw [List.map_map]
    apply List.map_congr_left
    intro a _
    by_cases hc : (a.id == pid) = true
    · simp only [beq_iff_eq] at hc
      simp [hc]
    · simp only [beq_iff_eq] at hc
      simp [hc]

/-- A one-post PostFeed backend where `u9` already likes `p1`. -/
def c5PfBackend : PFBackend :=
  { posts := [{ id := "p1", user_id := "u1", content := "hello", images := none
                files := none, visibility := "public", community_id := none
                created_at := 0, updated_at := 0 }]
    profiles := []
    likes := [{ id := "l1", user_id := "u9", post_id := "p1" }]
    comments := []
    postsErr := none, exn := none
    likesFail := [], commentsFail := [], profileFail := [] }

/-- The synced PostFeed state over `c5PfBackend`. -/
def c5PfSt : FeedState := pfLoadPosts true c5PfBackend "public" initFeedState

/-- A one-post MainLayout backend with no likes yet. -/
def c5MlBackend : MLBackend :=
  { posts := [{ id := "p1", user_id := "u1", content := "hello", images := []
                is_anonymous := false, created_at := 0, updated_at := 0 }]
    profiles := [], post_likes := [], post_comments := []
    queryErr := none, exn := none }

/-- The synced MainLayout state over `c5MlBackend`. -/
def c5MlSt : MLFeedState :=
  mlLoadPosts true witnessProfile 0 c5MlBackend "public" initMLFeedState

/-- Witness for C5 amended: concrete double toggles — unliking then reliking
`p1` as `u9` in PostFeed, liking then unliking it as `w1` in MainLayout —
restore both Like relations. -/
theorem c5_amended_witness :
    likesHas (pfHandleLike true "u9" "p1" "f2" false "public"
        (pfHandleLike true "u9" "p1" "f1" false "public" c5PfBackend c5PfSt).1
        (pfHandleLike true "u9" "p1" "f1" false "public" c5PfBackend c5PfSt).2).1.likes
        "u9" "p1"
      = likesHas c5PfBackend.likes "u9" "p1" ∧
    likesHas (mlHandleLike true witnessProfile 0 "p1" "f2" false "public"
        (mlHandleLike true witnessProfile 0 "p1" "f1" false "public"
          c5MlBackend c5MlSt).1
        (mlHandleLike true witnessProfile 0 "p1" "f1" false "public"
          c5MlBackend c5MlSt).2).1.post_likes witnessProfile.id "p1"
      = likesHas c5MlBackend.post_likes witnessProfile.id "p1" := by
  have h := c5_amended c5PfBackend c5MlBackend witnessProfile 0 "public" "u9" "p1"
    "f1" "f2" c5PfSt c5MlSt rfl rfl (by decide) (by decide) (by decide) (by decide)
    rfl rfl (by decide) (by decide) (by decide)
  exact ⟨h.1, h.2.2.1⟩
